import Mathlib

/-!
Verification of the credential-acquisition and request-gating subsystem of the
graphxr-database-proxy admin frontend.

The definitions below are a shallow embedding of the TypeScript sources:
  - the projectService module (axios instance, request interceptor,
    `initializeApiKey`, `setApiKey`, `setAdminToken`);
  - `App.tsx` (`checkAuthStatus`);
  - `ProjectForm.tsx` (credential store `serviceAccountKey`, the cascade
    selection handlers, `getProjectsList`, `getDatabaseList`,
    `handleGoogleLoginData`, `handleAuthTypeChange`).

Nullable JavaScript strings are `Option String`; JS truthiness of such a value
is `truthy` below (non-null and non-empty).  `localStorage` is an association
list.  Asynchronous completions (settings fetch, list calls, admin-status
probe) are passed in as explicit outcome values, so each handler becomes a
total state-transition function.
-/

namespace GraphXRProxy

/-- JS truthiness of a nullable string: truthy iff non-null and non-empty. -/
def truthy : Option String → Bool
  | some s => s != ""
  | none => false

/-- localStorage modelled as an association list from keys to values. -/
abbrev Store := List (String × String)

/-- localStorage.getItem. -/
def Store.getItem (st : Store) (k : String) : Option String :=
  match st.find? (fun p => p.1 == k) with
  | some p => some p.2
  | none => none

/-- localStorage.removeItem. -/
def Store.removeItem (st : Store) (k : String) : Store :=
  st.filter (fun p => p.1 != k)

/-- localStorage.setItem. -/
def Store.setItem (st : Store) (k v : String) : Store :=
  (k, v) :: Store.removeItem st k

/-- All suffixes of a character list (used for URL substring matching). -/
def charTails : List Char → List (List Char)
  | [] => [[]]
  | c :: cs => (c :: cs) :: charTails cs

/-- JS `hay.includes(needle)`: `needle` occurs as a substring of `hay`. -/
def containsSubstr (hay needle : String) : Bool :=
  (charTails hay.toList).any (fun t => needle.toList.isPrefixOf t)

/-- Shape of the response of GET /api/settings. -/
structure Settings where
  api_key_enabled : Bool
  api_key : Option String
deriving Repr, DecidableEq

/-- Outcome of the settings fetch inside `initializeApiKey` (`err` is the
catch path: network failure or any thrown error). -/
inductive FetchResult where
  | ok (settings : Settings)
  | err
deriving Repr, DecidableEq

/-- Module-level state of the projectService module: the two token caches, the
memoized initialization promise (a handle id when present), the
`isInitialized` flag, and the browser's localStorage.  `settingsFetchCount`
counts executions of the settings fetch inside the initialization body. -/
structure ApiState where
  cachedApiKey : Option String
  cachedAdminToken : Option String
  initializationPromise : Option Nat
  isInitialized : Bool
  settingsFetchCount : Nat
  nextHandle : Nat
  localStore : Store
deriving Repr, DecidableEq

/-- Module load: `cachedAdminToken` is initialized from
`localStorage.getItem('adminToken')`; everything else starts empty. -/
def initialApiState (store : Store) : ApiState :=
  { cachedApiKey := none
    cachedAdminToken := Store.getItem store "adminToken"
    initializationPromise := none
    isInitialized := false
    settingsFetchCount := 0
    nextHandle := 0
    localStore := store }

/-- A fresh process with empty localStorage. -/
def ApiState0 : ApiState := initialApiState []

/-- Body of the async closure inside `initializeApiKey`: fetch settings, cache
the key when enabled and truthy, cache null otherwise (also on the catch
path), and set `isInitialized := true` in the finally block.  The function is
total: no outcome makes it raise. -/
def runInitBody (r : FetchResult) (st : ApiState) : ApiState :=
  let st1 := { st with settingsFetchCount := st.settingsFetchCount + 1 }
  let st2 :=
    match r with
    | .ok s =>
        if s.api_key_enabled && truthy s.api_key then
          { st1 with cachedApiKey := s.api_key }
        else
          { st1 with cachedApiKey := none }
    | .err => { st1 with cachedApiKey := none }
  { st2 with isInitialized := true }

/-- initializeApiKey: if a promise is already stored, return it unchanged;
otherwise store a fresh handle and run the initialization body.  Returns the
promise handle together with the post-state. -/
def initializeApiKey (r : FetchResult) (st : ApiState) : Nat × ApiState :=
  match st.initializationPromise with
  | some h => (h, st)
  | none =>
      let h := st.nextHandle
      let st1 := { st with initializationPromise := some h, nextHandle := h + 1 }
      (h, runInitBody r st1)

/-- Fold a sequence of initializeApiKey calls, keeping only the states. -/
def applyInitCalls (rs : List FetchResult) (st : ApiState) : ApiState :=
  rs.foldl (fun s r => (initializeApiKey r s).2) st

/-- setApiKey. -/
def setApiKey (k : Option String) (st : ApiState) : ApiState :=
  { st with cachedApiKey := k }

/-- setAdminToken: update the in-memory cache, then `if (token)` write the
durable key, else remove it (the empty string is falsy in JS). -/
def setAdminToken (t : Option String) (st : ApiState) : ApiState :=
  let st1 := { st with cachedAdminToken := t }
  match t with
  | some tok =>
      if tok != "" then
        { st1 with localStore := Store.setItem st1.localStore "adminToken" tok }
      else
        { st1 with localStore := Store.removeItem st1.localStore "adminToken" }
  | none => { st1 with localStore := Store.removeItem st1.localStore "adminToken" }

/-- config.url.includes('/api/settings'). -/
def isSettingsRequest (url : String) : Bool := containsSubstr url "/api/settings"

/-- config.url.includes('/api/admin'). -/
def isAdminRequest (url : String) : Bool := containsSubstr url "/api/admin"

/-- The exempt endpoint family: settings requests and admin requests. -/
def isExemptUrl (url : String) : Bool := isSettingsRequest url || isAdminRequest url

/-- The request interceptor's gating condition: a request awaits the
initialization promise iff it is neither a settings nor an admin request, a
promise has been stored, and initialization has not completed. -/
def requestWaits (url : String) (st : ApiState) : Bool :=
  !isSettingsRequest url && !isAdminRequest url &&
    st.initializationPromise.isSome && !st.isInitialized

/-- Result of running the request interceptor on one outbound request. -/
structure InterceptDecision where
  waits : Bool
  adminHeader : Option String
  apiKeyHeader : Option String
  post : ApiState
deriving Repr, DecidableEq

/-- The request interceptor: decide whether to await the barrier, resolve the
admin token (cache first, localStorage fallback, re-caching a stale value),
and attach whichever of the two credentials are truthy. -/
def interceptRequest (url : String) (st : ApiState) : InterceptDecision :=
  let waits := requestWaits url st
  let stored := Store.getItem st.localStore "adminToken"
  let adminToken := if truthy st.cachedAdminToken then st.cachedAdminToken else stored
  let st1 :=
    if truthy adminToken && !(truthy st.cachedAdminToken) then
      { st with cachedAdminToken := adminToken }
    else st
  { waits := waits
    adminHeader := if truthy adminToken then adminToken else none
    apiKeyHeader := if truthy st.cachedApiKey then st.cachedApiKey else none
    post := st1 }

/-- The operations of the projectService module that touch `ApiState`. -/
inductive ApiOp where
  | initKey (r : FetchResult)
  | setKey (k : Option String)
  | setTok (t : Option String)
  | request (url : String)
deriving Repr, DecidableEq

/-- Effect of one module operation on the module state. -/
def ApiOp.apply : ApiOp → ApiState → ApiState
  | .initKey r, st => (initializeApiKey r st).2
  | .setKey k, st => setApiKey k st
  | .setTok t, st => setAdminToken t st
  | .request url, st => (interceptRequest url st).post

/-- The component state `serviceAccountKey` of ProjectForm: one flat mutable
object holding the active credential material (service-account fields or
OAuth2 fields) together with the resource-selection fields.  All fields are
nullable. -/
structure SAKey where
  type : Option String := none
  token : Option String := none
  refresh_token : Option String := none
  expires_in : Option String := none
  last_refreshed : Option Nat := none
  state : Option String := none
  email : Option String := none
  private_key : Option String := none
  private_key_id : Option String := none
  client_email : Option String := none
  project_id : Option String := none
  instance_id : Option String := none
  database_id : Option String := none
  graph_name : Option String := none
deriving Repr, DecidableEq

/-- A partial update object passed to `updateServiceAccountKey`: an outer
`none` means the field is absent from the object literal, `some v` means the
literal carries the value `v` (possibly null). -/
structure SAPatch where
  type : Option (Option String) := none
  token : Option (Option String) := none
  refresh_token : Option (Option String) := none
  expires_in : Option (Option String) := none
  last_refreshed : Option (Option Nat) := none
  state : Option (Option String) := none
  email : Option (Option String) := none
  private_key : Option (Option String) := none
  private_key_id : Option (Option String) := none
  client_email : Option (Option String) := none
  project_id : Option (Option String) := none
  instance_id : Option (Option String) := none
  database_id : Option (Option String) := none
  graph_name : Option (Option String) := none
deriving Repr, DecidableEq

/-- One field of a JS object spread: the patch value wins when present. -/
def mergeField {α : Type} (old : Option α) : Option (Option α) → Option α
  | some v => v
  | none => old

/-- The spread `{ ...prevKey, ...newData }` performed by
`updateServiceAccountKey` via `setServiceAccountKey`. -/
def mergePatch (k : SAKey) (p : SAPatch) : SAKey :=
  { type := mergeField k.type p.type
    token := mergeField k.token p.token
    refresh_token := mergeField k.refresh_token p.refresh_token
    expires_in := mergeField k.expires_in p.expires_in
    last_refreshed := mergeField k.last_refreshed p.last_refreshed
    state := mergeField k.state p.state
    email := mergeField k.email p.email
    private_key := mergeField k.private_key p.private_key
    private_key_id := mergeField k.private_key_id p.private_key_id
    client_email := mergeField k.client_email p.client_email
    project_id := mergeField k.project_id p.project_id
    instance_id := mergeField k.instance_id p.instance_id
    database_id := mergeField k.database_id p.database_id
    graph_name := mergeField k.graph_name p.graph_name }

/-- updateServiceAccountKey(newData): merge the update object over the
previous key (the accompanying form.setFieldsValue only mirrors the selection
fields into the antd form and is not modelled). -/
def updateServiceAccountKey (p : SAPatch) (k : SAKey) : SAKey :=
  mergePatch k p

/-- The spread `{ ...serviceAccountKey }` that the selection handlers prepend
to their update objects: a patch carrying every current field. -/
def SAKey.toPatch (k : SAKey) : SAPatch :=
  { type := some k.type
    token := some k.token
    refresh_token := some k.refresh_token
    expires_in := some k.expires_in
    last_refreshed := some k.last_refreshed
    state := some k.state
    email := some k.email
    private_key := some k.private_key
    private_key_id := some k.private_key_id
    client_email := some k.client_email
    project_id := some k.project_id
    instance_id := some k.instance_id
    database_id := some k.database_id
    graph_name := some k.graph_name }

/-- onChange of the Project ID select: write the new project and null the
instance, database and graph fields in the same update object. -/
def selectProject (v : String) (k : SAKey) : SAKey :=
  updateServiceAccountKey
    { k.toPatch with project_id := some (some v), instance_id := some none,
                     database_id := some none, graph_name := some none } k

/-- onChange of the Instance ID select (the ADC manual-entry input uses the
same update object): write the instance and null database and graph. -/
def selectInstance (v : String) (k : SAKey) : SAKey :=
  updateServiceAccountKey
    { k.toPatch with instance_id := some (some v), database_id := some none,
                     graph_name := some none } k

/-- onChange of the Database ID select (and the ADC manual-entry input):
write the database and null the graph. -/
def selectDatabase (v : String) (k : SAKey) : SAKey :=
  updateServiceAccountKey
    { k.toPatch with database_id := some (some v), graph_name := some none } k

/-- onChange of the Property Graph select (and the ADC manual-entry input). -/
def selectGraph (v : String) (k : SAKey) : SAKey :=
  updateServiceAccountKey { k.toPatch with graph_name := some (some v) } k

/-- handleAuthTypeChange: set the new auth type and call
`updateServiceAccountKey({})` — the spread of the empty object over the
previous key.  Returns the new auth type and the key after the merge. -/
def handleAuthTypeChange (value : String) (k : SAKey) : String × SAKey :=
  (value, updateServiceAccountKey {} k)

/-- An instance entry returned by list_projects. -/
structure GInstance where
  id : String
  name : String
deriving Repr, DecidableEq

/-- A project entry returned by list_projects. -/
structure GProject where
  id : String
  name : String
  instances : List GInstance := []
deriving Repr, DecidableEq

/-- A property-graph entry nested in a database entry. -/
structure GGraphDB where
  id : String
  name : String
deriving Repr, DecidableEq

/-- A database entry returned by list_databases. -/
structure GDatabase where
  id : String
  name : String
  graphDBs : List GGraphDB := []
deriving Repr, DecidableEq

/-- The success-path write of getProjectsList:
`updateServiceAccountKey({ ...serviceAccountKey, project_id: projects.length > 0 ? projects[0].id : "" })`. -/
def autoSelectProject (projects : List GProject) (k : SAKey) : SAKey :=
  updateServiceAccountKey
    { k.toPatch with
        project_id := some (some (match projects with | [] => "" | p :: _ => p.id)) } k

/-- Component state of ProjectForm relevant to the cascade loader. -/
structure FormState where
  authType : String
  serviceAccountKey : SAKey
  projectsList : List GProject := []
  databases : List GDatabase := []
  loadingProjects : Bool := false
  loadingDatabases : Bool := false
deriving Repr, DecidableEq

/-- Outcome of a list call: success with items, an HTTP error with a status
code (error.response.status), or a failure with no response attached. -/
inductive ListOutcome (α : Type) where
  | ok (items : List α)
  | httpError (code : Nat)
  | otherError
deriving Repr, DecidableEq

/-- Message shown by getProjectsList when auth type is google_ADC. -/
def msgADCProjects : String :=
  "Failed to fetch projects. Please ensure that Application Default Credentials are properly configured in your environment."

/-- Message shown on a 401 response. -/
def msgLoginRequired : String := "Authentication required. Please login first."

/-- Generic getProjectsList failure message. -/
def msgProjectsGeneric : String := "Failed to fetch projects"

/-- Generic getDatabaseList failure message. -/
def msgDatabasesGeneric : String := "Failed to fetch databases"

/-- getProjectsList: on success replace the projects catalog and run the
auto-select write; on failure pick the error message (the ADC branch is
checked before the 401 branch) and leave both catalogs alone.  The finally
block clears both loading flags.  Returns the post-state and the error
message, if any. -/
def getProjectsList (res : ListOutcome GProject) (st : FormState) : FormState × Option String :=
  match res with
  | .ok ps =>
      ({ st with projectsList := ps
                 serviceAccountKey := autoSelectProject ps st.serviceAccountKey
                 loadingProjects := false, loadingDatabases := false }, none)
  | .httpError code =>
      ({ st with loadingProjects := false, loadingDatabases := false },
        some (if st.authType == "google_ADC" then msgADCProjects
              else if code == 401 then msgLoginRequired
              else msgProjectsGeneric))
  | .otherError =>
      ({ st with loadingProjects := false, loadingDatabases := false },
        some (if st.authType == "google_ADC" then msgADCProjects
              else msgProjectsGeneric))

/-- getDatabaseList: on success replace the databases catalog; on failure
surface the 401 message or the generic one; finally clear both flags. -/
def getDatabaseList (res : ListOutcome GDatabase) (st : FormState) : FormState × Option String :=
  match res with
  | .ok dbs =>
      ({ st with databases := dbs, loadingProjects := false, loadingDatabases := false }, none)
  | .httpError code =>
      ({ st with loadingProjects := false, loadingDatabases := false },
        some (if code == 401 then msgLoginRequired else msgDatabasesGeneric))
  | .otherError =>
      ({ st with loadingProjects := false, loadingDatabases := false },
        some msgDatabasesGeneric)

/-- Condition of the project-list useEffect: fire when the key is a fresh
OAuth2 credential (truthy token while auth type is oauth2), a service-account
key (type field equals service_account with a truthy private_key_id), or the
auth type is google_ADC. -/
def shouldFetchProjects (authType : String) (k : SAKey) : Bool :=
  (truthy k.token && authType == "oauth2") ||
  (k.type == some "service_account" && truthy k.private_key_id) ||
  (authType == "google_ADC")

/-- The claim's trigger predicate, stated from the spec's words: the active
credential is usable per auth type — OAuth2 selected with a non-empty token,
a service-account key with private_key_id present, or ADC selected as the
auth type. -/
def claimUsableCredential (authType : String) (k : SAKey) : Bool :=
  (authType == "oauth2" && truthy k.token) ||
  (k.type == some "service_account" && truthy k.private_key_id) ||
  (authType == "google_ADC")

/-- Condition of the database-list useEffect: both project_id and instance_id
are truthy. -/
def shouldFetchDatabases (k : SAKey) : Bool :=
  truthy k.project_id && truthy k.instance_id

/-- The shared localStorage namespace written by the OAuth2 popup window. -/
structure GAuthStore where
  g_auth_token : Option String := none
  g_auth_state : Option String := none
  g_auth_email : Option String := none
  g_auth_refresh_token : Option String := none
  g_auth_expires_in : Option String := none
deriving Repr, DecidableEq

/-- checkGoogleLoginDataWrite: all of token, email and state are truthy. -/
def checkGoogleLoginDataWrite (s : GAuthStore) : Bool :=
  truthy s.g_auth_token && truthy s.g_auth_email && truthy s.g_auth_state

/-- handleGoogleLoginData: read the five entries, remove all five, and only
when token, email and state are all truthy replace the credential store with
the new oauth2 credential (a direct setServiceAccountKey, not a merge), with
last_refreshed set to the current time.  Returns the cleared shared store and
the resulting credential store. -/
def handleGoogleLoginData (now : Nat) (s : GAuthStore) (k : SAKey) : GAuthStore × SAKey :=
  let cleared : GAuthStore := {}
  if truthy s.g_auth_token && truthy s.g_auth_email && truthy s.g_auth_state then
    (cleared,
      { token := s.g_auth_token
        refresh_token := s.g_auth_refresh_token
        expires_in := s.g_auth_expires_in
        last_refreshed := some now
        state := s.g_auth_state
        email := s.g_auth_email })
  else
    (cleared, k)

/-- Outcome of the fetch('/api/admin/status') call in App.tsx:
a thrown error (network failure), a completed response with response.ok
false, or an OK response carrying the parsed status body. -/
inductive StatusOutcome where
  | netError
  | httpNotOk
  | ok (admin_auth_enabled : Bool) (authenticated : Bool)
deriving Repr, DecidableEq

/-- Component state of App.tsx together with the projectService module
state. -/
structure AppState where
  api : ApiState
  authenticated : Bool := false
  adminAuthEnabled : Bool := false
  loading : Bool := true
deriving Repr, DecidableEq

/-- First step of checkAuthStatus: read the durably stored admin token and,
when truthy, push it into the projectService cache via setAdminToken. -/
def restoreStoredToken (st : AppState) : AppState :=
  let stored := Store.getItem st.api.localStore "adminToken"
  if truthy stored then { st with api := setAdminToken stored st.api } else st

/-- checkAuthStatus from App.tsx: restore a truthy stored token into the
cache, probe /api/admin/status, and dispatch on the outcome — OK and
authenticated runs initializeApiKey; OK and not authenticated only records
the flags; response not OK clears the durable token and the cache; a thrown
error is treated as auth-not-required and still runs initializeApiKey.  The
finally block clears the loading flag.  `fr` is the outcome of the settings
fetch used if initializeApiKey executes its body. -/
def checkAuthStatus (r : StatusOutcome) (fr : FetchResult) (st : AppState) : AppState :=
  let st1 := { st with loading := true }
  let st2 := restoreStoredToken st1
  let st3 :=
    match r with
    | .ok e a =>
        let stA := { st2 with adminAuthEnabled := e, authenticated := a }
        if a then { stA with api := (initializeApiKey fr stA.api).2 } else stA
    | .httpNotOk =>
        let api1 := { st2.api with localStore := Store.removeItem st2.api.localStore "adminToken" }
        { st2 with api := setAdminToken none api1, authenticated := false }
    | .netError =>
        { st2 with authenticated := true, adminAuthEnabled := false,
                   api := (initializeApiKey fr st2.api).2 }
  { st3 with loading := false }

/-- A process in which initializeApiKey has been called (promise handle 0
stored) but the settings fetch has not yet completed. -/
def startedState : ApiState :=
  { ApiState0 with initializationPromise := some 0, nextHandle := 1 }

/-- An app start where localStorage durably holds the admin token "t0". -/
def appWithToken : AppState :=
  { api := initialApiState (Store.setItem [] "adminToken" "t0") }

/-- An uploaded service-account key. -/
def saExample : SAKey :=
  { type := some "service_account"
    private_key := some "PK"
    private_key_id := some "pkid"
    client_email := some "sa@example.com"
    project_id := some "proj-sa" }

/-- A credential store with a selected project and instance. -/
def staleKey : SAKey :=
  { project_id := some "p1", instance_id := some "i1" }

/-- A ProjectForm state using ADC. -/
def formADC : FormState :=
  { authType := "google_ADC", serviceAccountKey := {} }

/-- A ProjectForm state using OAuth2, with an existing catalog. -/
def formOauth : FormState :=
  { authType := "oauth2"
    serviceAccountKey := { token := some "tk" }
    projectsList := [{ id := "p1", name := "One" }]
    databases := [{ id := "d1", name := "DB One" }]
    loadingProjects := true }

/-- A shared OAuth2 store holding a token but no email and no state. -/
def partialAuthStore : GAuthStore :=
  { g_auth_token := some "tok123" }

theorem Store.getItem_setItem (st : Store) (k v : String) :
    Store.getItem (Store.setItem st k v) k = some v := by
  simp [Store.getItem, Store.setItem, List.find?]

theorem Store.getItem_removeItem (st : Store) (k : String) :
    Store.getItem (Store.removeItem st k) k = none := by
  have h : List.find? (fun p => p.1 == k) (Store.removeItem st k) = none := by
    rw [List.find?_eq_none]
    intro p hp
    have hmem := List.of_mem_filter hp
    simpa using hmem
  simp [Store.getItem, h]

theorem runInitBody_promise (r : FetchResult) (st : ApiState) :
    (runInitBody r st).initializationPromise = st.initializationPromise := by
  cases r <;> simp [runInitBody] <;> split <;> rfl

theorem runInitBody_isInit (r : FetchResult) (st : ApiState) :
    (runInitBody r st).isInitialized = true := by
  cases r <;> simp [runInitBody] <;> split <;> rfl

theorem runInitBody_localStore (r : FetchResult) (st : ApiState) :
    (runInitBody r st).localStore = st.localStore := by
  cases r <;> simp [runInitBody] <;> split <;> rfl

theorem setAdminToken_promise (t : Option String) (st : ApiState) :
    (setAdminToken t st).initializationPromise = st.initializationPromise := by
  cases t <;> simp [setAdminToken] <;> split <;> rfl

theorem setAdminToken_isInit (t : Option String) (st : ApiState) :
    (setAdminToken t st).isInitialized = st.isInitialized := by
  cases t <;> simp [setAdminToken] <;> split <;> rfl

theorem setAdminToken_getItem (t : Option String) (st : ApiState) :
    Store.getItem (setAdminToken t st).localStore "adminToken" =
      (if truthy t then t else none) := by
  cases t with
  | none => simp [setAdminToken, truthy, Store.getItem_removeItem]
  | some tok =>
      by_cases h : tok = ""
      · simp [setAdminToken, truthy, h, Store.getItem_removeItem]
      · simp [setAdminToken, truthy, h, Store.getItem_setItem]

theorem setAdminToken_cache (t : Option String) (st : ApiState) :
    (setAdminToken t st).cachedAdminToken = t := by
  cases t <;> simp [setAdminToken] <;> split <;> rfl

theorem restoreStoredToken_promise (st : AppState) :
    (restoreStoredToken st).api.initializationPromise = st.api.initializationPromise := by
  simp only [restoreStoredToken]
  split
  · rw [setAdminToken_promise]
  · rfl

theorem restoreStoredToken_getItem (st : AppState) :
    Store.getItem (restoreStoredToken st).api.localStore "adminToken" =
      Store.getItem st.api.localStore "adminToken" := by
  simp only [restoreStoredToken]
  split
  next h =>
    rw [setAdminToken_getItem, if_pos h]
  next h => rfl

theorem restoreStoredToken_flags (st : AppState) :
    (restoreStoredToken st).authenticated = st.authenticated ∧
    (restoreStoredToken st).adminAuthEnabled = st.adminAuthEnabled := by
  simp only [restoreStoredToken]
  split <;> exact ⟨rfl, rfl⟩

theorem initializeApiKey_promise_isSome (r : FetchResult) (st : ApiState) :
    ((initializeApiKey r st).2).initializationPromise.isSome = true := by
  cases h : st.initializationPromise with
  | some v => simp [initializeApiKey, h]
  | none => simp [initializeApiKey, h, runInitBody_promise]

theorem initializeApiKey_memo (r : FetchResult) (st : ApiState) (h : Nat)
    (hp : st.initializationPromise = some h) : initializeApiKey r st = (h, st) := by
  simp [initializeApiKey, hp]

theorem runInitBody_fetchCount (r : FetchResult) (st : ApiState) :
    (runInitBody r st).settingsFetchCount = st.settingsFetchCount + 1 := by
  cases r <;> simp [runInitBody] <;> split <;> rfl

theorem interceptRequest_isInit (url : String) (st : ApiState) :
    (interceptRequest url st).post.isInitialized = st.isInitialized := by
  simp only [interceptRequest]
  split <;> split <;> rfl

theorem truthy_isSome (o : Option String) (h : truthy o = true) : o ≠ none := by
  cases o <;> simp [truthy] at h ⊢

/-- C1 counterexample: a gated request (the project-list endpoint, neither a
settings nor an admin URL) issued before bootstrap completion — here before
`initializeApiKey` has even been called, so the barrier is unresolved — is
transmitted immediately instead of being held until the barrier resolves. -/
theorem gateway_unstarted_counterexample :
    isExemptUrl "/api/project/list" = false ∧
    ApiState0.isInitialized = false ∧
    ApiState0.initializationPromise = none ∧
    requestWaits "/api/project/list" ApiState0 = false := by
  refine ⟨by decide, by decide, by decide, by decide⟩

/-- C1 (amended): an exempt request (URL containing /api/settings or
/api/admin) is transmitted immediately regardless of barrier state; a gated
request issued after the bootstrap has started (a promise is stored) and
before it completes is suspended until the barrier resolves; a gated request
issued before the bootstrap has started is transmitted immediately. -/
theorem gateway_gating (url : String) (st : ApiState) :
    (isExemptUrl url = true → requestWaits url st = false) ∧
    (isExemptUrl url = false → st.initializationPromise.isSome = true →
      st.isInitialized = false → requestWaits url st = true) ∧
    (isExemptUrl url = false → st.initializationPromise = none →
      requestWaits url st = false) := by
  cases hs : isSettingsRequest url <;> cases ha : isAdminRequest url <;>
    cases hp : st.initializationPromise <;> cases hi : st.isInitialized <;>
      simp [isExemptUrl, requestWaits, hs, ha, hp, hi]

/-- Witness for gateway_gating at concrete inputs. -/
theorem gateway_gating_witness :
    requestWaits "/api/project/list" startedState = true ∧
    requestWaits "/api/settings" startedState = false ∧
    requestWaits "/api/project/list" ApiState0 = false :=
  ⟨(gateway_gating "/api/project/list" startedState).2.1 (by decide) (by decide) (by decide),
   (gateway_gating "/api/settings" startedState).1 (by decide),
   (gateway_gating "/api/project/list" ApiState0).2.2 (by decide) (by decide)⟩

/-- C2 counterexample: the auto-select write performed on the success path of
getProjectsList writes a new project_id into the credential store while
leaving a stale instance selection in place, so a parent-field write does not
always clear the descendant fields. -/
theorem cascade_reset_counterexample :
    staleKey.instance_id = some "i1" ∧
    (autoSelectProject [{ id := "p2", name := "Two" }] staleKey).project_id = some "p2" ∧
    (autoSelectProject [{ id := "p2", name := "Two" }] staleKey).instance_id = some "i1" := by
  refine ⟨rfl, rfl, rfl⟩

/-- C2 (amended): every selection handler clears all descendant fields in the
same single update object that writes the parent — selecting a project nulls
instance, database and graph; selecting an instance nulls database and graph;
selecting a database nulls the graph.  Only the auto-select write inside
getProjectsList writes project_id without clearing descendants. -/
theorem cascade_reset (v : String) (k : SAKey) :
    ((selectProject v k).project_id = some v ∧
     (selectProject v k).instance_id = none ∧
     (selectProject v k).database_id = none ∧
     (selectProject v k).graph_name = none) ∧
    ((selectInstance v k).instance_id = some v ∧
     (selectInstance v k).database_id = none ∧
     (selectInstance v k).graph_name = none) ∧
    ((selectDatabase v k).database_id = some v ∧
     (selectDatabase v k).graph_name = none) := by
  refine ⟨⟨rfl, rfl, rfl, rfl⟩, ⟨rfl, rfl, rfl⟩, rfl, rfl⟩

/-- C3: the popup credential bridge replaces the credential store only when
the token, email and state entries are all present (indeed truthy) in the
shared store simultaneously; if any of the three is absent the credential
store is left untouched. -/
theorem popup_bridge_full_triple (now : Nat) (s : GAuthStore) (k : SAKey) :
    ((handleGoogleLoginData now s k).2 ≠ k →
      s.g_auth_token ≠ none ∧ s.g_auth_email ≠ none ∧ s.g_auth_state ≠ none) ∧
    ((s.g_auth_token = none ∨ s.g_auth_email = none ∨ s.g_auth_state = none) →
      (handleGoogleLoginData now s k).2 = k) := by
  by_cases hb : (truthy s.g_auth_token && truthy s.g_auth_email && truthy s.g_auth_state) = true
  · have h := hb
    rw [Bool.and_eq_true, Bool.and_eq_true] at h
    obtain ⟨⟨ht, he⟩, hs2⟩ := h
    constructor
    · intro _
      exact ⟨truthy_isSome _ ht, truthy_isSome _ he, truthy_isSome _ hs2⟩
    · intro hcase
      exfalso
      rcases hcase with h0 | h0 | h0
      · rw [h0] at ht; exact absurd ht (by decide)
      · rw [h0] at he; exact absurd he (by decide)
      · rw [h0] at hs2; exact absurd hs2 (by decide)
  · rw [Bool.not_eq_true] at hb
    have hres : (handleGoogleLoginData now s k).2 = k := by
      simp [handleGoogleLoginData, hb]
    exact ⟨fun hne => absurd hres hne, fun _ => hres⟩

/-- Witness for popup_bridge_full_triple: a store holding a token but no email
is never merged. -/
theorem popup_bridge_full_triple_witness :
    (handleGoogleLoginData 0 partialAuthStore saExample).2 = saExample :=
  (popup_bridge_full_triple 0 partialAuthStore saExample).2 (Or.inr (Or.inl rfl))

/-- C4 (code-bug exhibit): handleAuthTypeChange calls
updateServiceAccountKey with the empty object, and spreading the empty object
over the previous key changes nothing, so switching the auth type from
service_account to oauth2 leaves every field of the uploaded key material in
the credential store — contrary to the documented clearing behavior (and to
handleRemoveServiceAccount's own success message, which uses the same call). -/
theorem authTypeChange_keeps_key_material :
    (handleAuthTypeChange "oauth2" saExample).2 = saExample ∧
    (handleAuthTypeChange "oauth2" saExample).2.private_key = some "PK" ∧
    (handleAuthTypeChange "oauth2" saExample).2.private_key_id = some "pkid" ∧
    (handleAuthTypeChange "oauth2" saExample).2.client_email = some "sa@example.com" ∧
    (handleAuthTypeChange "oauth2" saExample).2.type = some "service_account" := by
  refine ⟨rfl, rfl, rfl, rfl, rfl⟩

/-- C5 counterexample: getProjectsList auto-selects the first returned project
even though a project is already selected — the existing selection "p1" is
overwritten with "p2" instead of being preserved. -/
theorem project_autoselect_counterexample :
    staleKey.project_id = some "p1" ∧
    (autoSelectProject [{ id := "p2", name := "Two" }] staleKey).project_id = some "p2" := by
  refine ⟨rfl, rfl⟩

/-- C5 (amended): the project-list trigger fires exactly when the active
credential is usable per auth type (oauth2 with a non-empty token, a
service-account key with private_key_id present, or ADC selected); on success
the project catalog is replaced and project_id is unconditionally set to the
first returned project's id when the list is non-empty, and to the empty
string when it is empty, regardless of any existing selection. -/
theorem project_list_trigger (authType : String) (k : SAKey) (st : FormState)
    (p : GProject) (ps : List GProject) :
    shouldFetchProjects authType k = claimUsableCredential authType k ∧
    (getProjectsList (.ok ps) st).1.projectsList = ps ∧
    (getProjectsList (.ok (p :: ps)) st).1.serviceAccountKey.project_id = some p.id ∧
    (getProjectsList (.ok []) st).1.serviceAccountKey.project_id = some "" := by
  refine ⟨?_, rfl, rfl, rfl⟩
  cases h1 : truthy k.token <;> cases h2 : (authType == "oauth2") <;>
    simp [shouldFetchProjects, claimUsableCredential, h1, h2]

/-- C6: whenever the initialization body runs, it completes (it is a total
function of the fetch outcome) with isInitialized set to true; the flag is
never reset by any module operation; on a successful fetch with the key
enabled and truthy, the key is cached; in every other case (disabled, empty
or null key, or a failed fetch) the cached key is null. -/
theorem initializeApiKey_barrier (r : FetchResult) (s : Settings) (st : ApiState) (op : ApiOp) :
    (runInitBody r st).isInitialized = true ∧
    (s.api_key_enabled = true → truthy s.api_key = true →
      (runInitBody (.ok s) st).cachedApiKey = s.api_key) ∧
    ((s.api_key_enabled && truthy s.api_key) = false →
      (runInitBody (.ok s) st).cachedApiKey = none) ∧
    (runInitBody .err st).cachedApiKey = none ∧
    (st.isInitialized = true → (ApiOp.apply op st).isInitialized = true) := by
  refine ⟨runInitBody_isInit r st, ?_, ?_, rfl, ?_⟩
  · intro h1 h2
    simp [runInitBody, h1, h2]
  · intro h
    simp [runInitBody, h]
  · intro hinit
    cases op with
    | initKey r2 =>
        cases hp : st.initializationPromise with
        | some v => simpa [ApiOp.apply, initializeApiKey, hp] using hinit
        | none => simp [ApiOp.apply, initializeApiKey, hp, runInitBody_isInit]
    | setKey k => simpa [ApiOp.apply, setApiKey] using hinit
    | setTok t => rw [ApiOp.apply, setAdminToken_isInit]; exact hinit
    | request url => rw [ApiOp.apply, interceptRequest_isInit]; exact hinit

/-- Witness for initializeApiKey_barrier at concrete settings and operations. -/
theorem initializeApiKey_barrier_witness :
    (runInitBody (.ok { api_key_enabled := true, api_key := some "k1" }) ApiState0).isInitialized = true ∧
    (runInitBody (.ok { api_key_enabled := true, api_key := some "k1" }) ApiState0).cachedApiKey = some "k1" ∧
    (runInitBody (.ok { api_key_enabled := false, api_key := some "k1" }) ApiState0).cachedApiKey = none ∧
    (runInitBody .err ApiState0).cachedApiKey = none ∧
    (ApiOp.apply (.setKey none) { ApiState0 with isInitialized := true }).isInitialized = true :=
  have h1 := initializeApiKey_barrier (.ok { api_key_enabled := true, api_key := some "k1" })
    { api_key_enabled := true, api_key := some "k1" } ApiState0 (.setKey none)
  have h2 := initializeApiKey_barrier (.ok { api_key_enabled := false, api_key := some "k1" })
    { api_key_enabled := false, api_key := some "k1" }
    { ApiState0 with isInitialized := true } (.setKey none)
  ⟨h1.1, h1.2.1 (by decide) (by decide), h2.2.2.1 (by decide), h1.2.2.2.1,
    h2.2.2.2.2 (by decide)⟩

/-- C7 counterexample: the admin-status call succeeds (HTTP OK) and reports
not authenticated while admin auth is enabled, with token "t0" durably
stored: checkAuthStatus leaves the durable token in place (it is not cleared)
and defers the bootstrap. -/
theorem admin_status_counterexample :
    Store.getItem appWithToken.api.localStore "adminToken" = some "t0" ∧
    Store.getItem (checkAuthStatus (.ok true false) .err appWithToken).api.localStore
      "adminToken" = some "t0" ∧
    (checkAuthStatus (.ok true false) .err appWithToken).api.initializationPromise = none := by
  refine ⟨by decide, by decide, by decide⟩

/-- C7 (amended): the startup probe has four outcomes — (a) the call throws:
authenticated is treated as true, admin auth as disabled, and the bootstrap
still runs; (b) the call returns OK and authenticated: the bootstrap runs;
(c) the call returns OK and not authenticated: the flags are recorded, the
bootstrap is deferred, and the durable admin token is retained, not cleared;
(d) the call completes with a non-OK response: the durable token and the
cache are cleared, authenticated is set to false, and the bootstrap does not
run. -/
theorem admin_status_outcomes (fr : FetchResult) (st : AppState) (e : Bool) :
    ((checkAuthStatus .netError fr st).authenticated = true ∧
     (checkAuthStatus .netError fr st).adminAuthEnabled = false ∧
     ((checkAuthStatus .netError fr st).api.initializationPromise).isSome = true) ∧
    (((checkAuthStatus (.ok e true) fr st).api.initializationPromise).isSome = true ∧
     (checkAuthStatus (.ok e true) fr st).authenticated = true) ∧
    ((checkAuthStatus (.ok e false) fr st).api.initializationPromise =
        st.api.initializationPromise ∧
     (checkAuthStatus (.ok e false) fr st).authenticated = false ∧
     (checkAuthStatus (.ok e false) fr st).adminAuthEnabled = e ∧
     Store.getItem (checkAuthStatus (.ok e false) fr st).api.localStore "adminToken" =
        Store.getItem st.api.localStore "adminToken") ∧
    ((checkAuthStatus .httpNotOk fr st).api.cachedAdminToken = none ∧
     Store.getItem (checkAuthStatus .httpNotOk fr st).api.localStore "adminToken" = none ∧
     (checkAuthStatus .httpNotOk fr st).authenticated = false ∧
     (checkAuthStatus .httpNotOk fr st).api.initializationPromise =
        st.api.initializationPromise) := by
  refine ⟨⟨rfl, rfl, ?_⟩, ⟨?_, rfl⟩, ⟨?_, rfl, rfl, ?_⟩, ?_, ?_, rfl, ?_⟩
  · show ((initializeApiKey fr (restoreStoredToken { st with loading := true }).api).2).initializationPromise.isSome = true
    exact initializeApiKey_promise_isSome _ _
  · show ((initializeApiKey fr _).2).initializationPromise.isSome = true
    exact initializeApiKey_promise_isSome _ _
  · show (restoreStoredToken { st with loading := true }).api.initializationPromise =
      st.api.initializationPromise
    exact restoreStoredToken_promise _
  · show Store.getItem (restoreStoredToken { st with loading := true }).api.localStore
      "adminToken" = Store.getItem st.api.localStore "adminToken"
    exact restoreStoredToken_getItem _
  · show (setAdminToken none _).cachedAdminToken = none
    exact setAdminToken_cache _ _
  · show Store.getItem (setAdminToken none _).localStore "adminToken" = none
    rw [setAdminToken_getItem]
    rfl
  · show (setAdminToken none { (restoreStoredToken { st with loading := true }).api with
        localStore := Store.removeItem (restoreStoredToken { st with loading := true }).api.localStore "adminToken" }).initializationPromise =
      st.api.initializationPromise
    rw [setAdminToken_promise]
    exact restoreStoredToken_promise _

/-- C8 counterexample: a getProjectsList failure with HTTP status 401 under
auth type google_ADC is surfaced with the ADC diagnostic, not with the
distinct login-required message the claim demands for every 401. -/
theorem list_error_adc_counterexample :
    (getProjectsList (.httpError 401) formADC).2 = some msgADCProjects ∧
    msgADCProjects ≠ msgLoginRequired := by
  refine ⟨rfl, by decide⟩

/-- C8 (amended): every failing list call leaves both catalogs untouched and
clears the loading flags; a 401 is surfaced with the login-required message —
distinct from the generic messages and from the ADC diagnostic — except in
getProjectsList under auth type google_ADC, where the ADC diagnostic takes
precedence over the 401 message. -/
theorem list_failure_policy (st : FormState) (code : Nat) :
    ((getProjectsList (.httpError code) st).1.projectsList = st.projectsList ∧
     (getProjectsList (.httpError code) st).1.databases = st.databases ∧
     (getProjectsList (.httpError code) st).1.loadingProjects = false ∧
     (getProjectsList (.httpError code) st).1.loadingDatabases = false ∧
     (getProjectsList .otherError st).1.projectsList = st.projectsList ∧
     (getProjectsList .otherError st).1.databases = st.databases) ∧
    ((getDatabaseList (.httpError code) st).1.projectsList = st.projectsList ∧
     (getDatabaseList (.httpError code) st).1.databases = st.databases ∧
     (getDatabaseList (.httpError code) st).1.loadingProjects = false ∧
     (getDatabaseList (.httpError code) st).1.loadingDatabases = false ∧
     (getDatabaseList .otherError st).1.databases = st.databases) ∧
    (st.authType ≠ "google_ADC" →
      (getProjectsList (.httpError 401) st).2 = some msgLoginRequired) ∧
    ((getDatabaseList (.httpError 401) st).2 = some msgLoginRequired) ∧
    (st.authType = "google_ADC" →
      (getProjectsList (.httpError 401) st).2 = some msgADCProjects) ∧
    (msgLoginRequired ≠ msgProjectsGeneric ∧ msgLoginRequired ≠ msgDatabasesGeneric ∧
      msgLoginRequired ≠ msgADCProjects) := by
  refine ⟨⟨rfl, rfl, rfl, rfl, rfl, rfl⟩, ⟨rfl, rfl, rfl, rfl, rfl⟩, ?_, rfl, ?_,
    by decide, by decide, by decide⟩
  · intro h
    have hb : (st.authType == "google_ADC") = false := by
      simpa using h
    simp [getProjectsList, hb]
  · intro h
    have hb : (st.authType == "google_ADC") = true := by
      simpa using h
    simp [getProjectsList, hb]

/-- Witness for list_failure_policy under the oauth2 auth type. -/
theorem list_failure_policy_witness :
    (getProjectsList (.httpError 401) formOauth).2 = some msgLoginRequired ∧
    (getProjectsList (.httpError 401) formOauth).1.projectsList = formOauth.projectsList ∧
    (getProjectsList (.httpError 401) formOauth).1.loadingProjects = false ∧
    (getDatabaseList (.httpError 401) formOauth).2 = some msgLoginRequired :=
  have h := list_failure_policy formOauth 401
  ⟨h.2.2.1 (by decide), h.1.1, h.1.2.2.1, h.2.2.2.1⟩

/-- C9: initializeApiKey is memoized by the stored promise handle: starting
from a state with no stored promise, the first call stores a handle and runs
the settings fetch exactly once; every later call, and any sequence of later
calls, returns the same handle and leaves the state (hence the fetch count)
unchanged. -/
theorem initializeApiKey_idempotent (st : ApiState) (r : FetchResult)
    (h0 : st.initializationPromise = none) :
    (∀ r2, initializeApiKey r2 (initializeApiKey r st).2 = initializeApiKey r st) ∧
    (∀ rs, applyInitCalls rs (initializeApiKey r st).2 = (initializeApiKey r st).2) ∧
    ((initializeApiKey r st).2).settingsFetchCount = st.settingsFetchCount + 1 := by
  have hfst : initializeApiKey r st =
      (st.nextHandle,
        runInitBody r { st with initializationPromise := some st.nextHandle,
                                nextHandle := st.nextHandle + 1 }) := by
    simp [initializeApiKey, h0]
  have hp2 : ((initializeApiKey r st).2).initializationPromise = some st.nextHandle := by
    rw [hfst]
    rw [runInitBody_promise]
  have hfix : ∀ r2, initializeApiKey r2 (initializeApiKey r st).2 = initializeApiKey r st := by
    intro r2
    rw [initializeApiKey_memo r2 _ st.nextHandle hp2, hfst]
  refine ⟨hfix, ?_, ?_⟩
  · intro rs
    induction rs with
    | nil => rfl
    | cons a as ih =>
        show applyInitCalls as (initializeApiKey a (initializeApiKey r st).2).2 =
          (initializeApiKey r st).2
        rw [hfix a]
        exact ih
  · rw [hfst]
    rw [runInitBody_fetchCount]

/-- Witness for initializeApiKey_idempotent from the fresh process state. -/
theorem initializeApiKey_idempotent_witness :
    initializeApiKey .err (initializeApiKey .err ApiState0).2 = initializeApiKey .err ApiState0 ∧
    ((initializeApiKey .err ApiState0).2).settingsFetchCount = 1 :=
  have h := initializeApiKey_idempotent ApiState0 .err (by decide)
  ⟨h.1 .err, h.2.2⟩

/-- C10 counterexample: setAdminToken with the empty string (a non-null
token) stores the empty string in the cache but removes the durable entry,
leaving the cache and the durable store holding different values. -/
theorem setAdminToken_empty_counterexample :
    (setAdminToken (some "") ApiState0).cachedAdminToken = some "" ∧
    Store.getItem (setAdminToken (some "") ApiState0).localStore "adminToken" = none := by
  refine ⟨by decide, by decide⟩

/-- C10 (amended): after setAdminToken(t) the cache always equals t, and the
durable key holds t exactly when t is truthy (non-null and non-empty); for a
null or empty t the durable entry is absent, so cache and durable store agree
except at the empty string. -/
theorem setAdminToken_agreement (t : Option String) (st : ApiState) :
    (setAdminToken t st).cachedAdminToken = t ∧
    Store.getItem (setAdminToken t st).localStore "adminToken" =
      (if truthy t then t else none) := by
  constructor
  · cases t <;> simp [setAdminToken] <;> split <;> rfl
  · exact setAdminToken_getItem t st

end GraphXRProxy
